import Mathlib

/-!
Formal model of the LILC abstract syntax tree header (ast.hpp of
kray10/project3): the node data model, the construction protocol and the
canonical unparse (pretty-print) protocol.

Modelling conventions, traced from the source:

* Every class of ast.hpp that has a definition becomes a Lean type with
  the same name and the same stored members (ast.hpp defines ASTNode,
  ProgramNode, ExpNode, ExpListNode, DeclListNode, DeclNode, VarDeclNode,
  TypeNode, IdNode, IntNode, BoolNode, VoidNode, StructDeclNode,
  StructNode, FnDeclNode, FormalDeclNode, FormalsListNode, FnBodyNode,
  StmtListNode, StmtNode, AssignStmtNode, AssignNode, DotAccessNode,
  IntLitNode, StrLitNode and TrueNode; the further node kinds named in
  the header comment have no class definition).  Abstract-base families
  (DeclNode, StmtNode, ExpNode, TypeNode) become inductive types whose
  constructors are exactly the defined concrete subclasses.
* Child pointers held by fixed-arity nodes are exclusively owned
  (composition), so they are embedded structurally.
* Token carriers come from symbols.hpp, which is not part of the visible
  sources; they are modelled from the spec as records holding an
  identifier string, an integer value, or a string-literal text.  The
  pointers IntLitNode and StrLitNode store are modelled as addresses
  (Nat) read through an explicit token heap.
* The builder lists handed to DeclListNode, FormalsListNode and
  StmtListNode arrive through a possibly null pointer into a store of
  lists; the lists themselves are Lean lists.
* Writing to the std::ostream sink appends characters to the sink
  contents; an unparse member returns the emitted text.
-/

/-- Modelled from the spec: the identifier token carrier of symbols.hpp
(not among the visible sources) holds the identifier text, exposed by
value(). -/
structure IDToken where
  value : String

/-- Modelled from the spec: the integer-literal token carrier of
symbols.hpp holds an integer value. -/
structure IntLitToken where
  value : Int

/-- Modelled from the spec: the string-literal token carrier of
symbols.hpp holds the literal text. -/
structure StringLitToken where
  value : String

/-- Lexer-owned token storage: the IntLitToken and StringLitToken objects
that IntLitNode and StrLitNode point into, addressed by Nat.  Mutating a
heap entry models the lexer (or anyone) changing a token object after a
node was constructed. -/
structure TokenHeaps where
  intTok : Nat → IntLitToken
  strTok : Nat → StringLitToken

/-- Translated from ast.hpp lines 192-200: IdNode stores the copied
string myStrVal, its only member. -/
structure IdNode where
  myStrVal : String

/-- Translated from ast.hpp lines 185-243: the TypeNode family with its
defined concrete subclasses IntNode, BoolNode, VoidNode and StructNode
(which stores an IdNode, lines 235-243). -/
inductive TypeNode where
  | intT
  | boolT
  | voidT
  | structT (myId : IdNode)

/-- Translated from ast.hpp lines 137-152 and 323-372: the ExpNode family
with its defined concrete subclasses.  IdNode (line 192) stores the
copied text; IntLitNode (line 347) stores the pointer myIntLit to an
IntLitToken; StrLitNode (line 357) stores the pointer myStringLit to a
StringLitToken; TrueNode (line 367) has no members; AssignNode (line
323) stores two expression children; DotAccessNode (line 335) stores an
expression and an IdNode.  No further ExpNode subclass is defined in the
header. -/
inductive ExpNode where
  | idE (myId : IdNode)
  | intLitE (myIntLit : Nat)
  | strLitE (myStringLit : Nat)
  | trueE
  | assignE (myExpNode1 : ExpNode) (myExpNode2 : ExpNode)
  | dotAccessE (myExp : ExpNode) (myId : IdNode)

/-- Translated from ast.hpp lines 323-333: class AssignNode with members
myExpNode1 and myExpNode2, as stored by AssignStmtNode.  As an ExpNode
subclass it is embedded into the expression family by
AssignNode.toExp. -/
structure AssignNode where
  myExpNode1 : ExpNode
  myExpNode2 : ExpNode

/-- Subclass embedding of AssignNode into the ExpNode family. -/
def AssignNode.toExp (a : AssignNode) : ExpNode :=
  ExpNode.assignE a.myExpNode1 a.myExpNode2

/-- Translated from ast.hpp lines 144-152: ExpListNode stores member
myExpList, a list of expression children, received by value. -/
structure ExpListNode where
  myExpList : List ExpNode

/-- Translated from ast.hpp lines 306-321: the StmtNode family.  The only
defined concrete subclass is AssignStmtNode (line 313), storing member
myAssignNode.  The further statement classes named in the header comment
(lines 35-46) have no class definition. -/
inductive StmtNode where
  | assignStmt (myAssignNode : AssignNode)

/-- Translated from ast.hpp lines 296-304: StmtListNode stores member
myStmtList, copied out of the pointed-to builder list. -/
structure StmtListNode where
  myStmtList : List StmtNode

/-- Translated from ast.hpp lines 262-272: FormalDeclNode stores myType
and myId.  It is a DeclNode subclass, embedded into the declaration
family below. -/
structure FormalDeclNode where
  myType : TypeNode
  myId : IdNode

/-- Translated from ast.hpp lines 274-282: FormalsListNode stores member
myFormalDeclList, copied out of the pointed-to builder list. -/
structure FormalsListNode where
  myFormalDeclList : List FormalDeclNode

/-- Translated from ast.hpp line 177: static const int NOT_STRUCT = -1,
the value of mySize when the variable declaration is not of struct
type. -/
def VarDeclNode.NOT_STRUCT : Int := -1

mutual

/-- Translated from ast.hpp lines 164-183, 223-233 and 245-294: the
DeclNode family with its defined concrete subclasses VarDeclNode (myType,
myId, mySize), FnDeclNode (myType, myId, myFormalsList, myFnBody),
FormalDeclNode and StructDeclNode (myId, myDeclList). -/
inductive DeclNode where
  | varDecl (myType : TypeNode) (myId : IdNode) (mySize : Int)
  | fnDecl (myType : TypeNode) (myId : IdNode) (myFormalsList : FormalsListNode)
      (myFnBody : FnBodyNode)
  | formalDecl (f : FormalDeclNode)
  | structDecl (myId : IdNode) (myDeclList : DeclListNode)

/-- Translated from ast.hpp lines 154-162: DeclListNode stores member
myDecls, copied out of the pointed-to builder list. -/
inductive DeclListNode where
  | mkDL (decls : List DeclNode)

/-- Translated from ast.hpp lines 284-294: FnBodyNode stores myDeclList
and myStmtList. -/
inductive FnBodyNode where
  | mkFB (myDeclList : DeclListNode) (myStmtList : StmtListNode)

end

/-- Member accessor for DeclListNode. -/
def DeclListNode.myDecls : DeclListNode → List DeclNode
  | DeclListNode.mkDL ds => ds

/-- Translated from ast.hpp lines 126-135: ProgramNode stores member
myDeclList, the root of the tree. -/
structure ProgramNode where
  myDeclList : DeclListNode

/-- Loop body accumulation of ASTNode::doIndent (ast.hpp line 122): the
loop for k in 0..indent-1 appends one single-space write per
iteration. -/
def doIndentAux : Nat → String
  | 0 => ""
  | k + 1 => doIndentAux k ++ " "

/-- Translated from ast.hpp lines 121-123: doIndent runs its loop while
k < indent, so it performs indent iterations when indent is positive and
none when indent is zero or negative (Int.toNat of the argument). -/
def ASTNode.doIndent (indent : Int) : String :=
  doIndentAux indent.toNat

/-- Translated from ast.hpp lines 194-196: the IdNode constructor takes a
pointer to an IDToken and copies token->value() into myStrVal; the token
itself is not retained.  The token pointer is an address into the
lexer-owned IDToken store. -/
def IdNode.construct (idTok : Nat → IDToken) (token : Nat) : IdNode :=
  IdNode.mk (idTok token).value

/-- Translated from ast.hpp lines 349-351: the IntLitNode constructor
stores the received token pointer itself in myIntLit; it never reads the
token value. -/
def IntLitNode.construct (intLit : Nat) : ExpNode :=
  ExpNode.intLitE intLit

/-- Translated from ast.hpp lines 359-361: the StrLitNode constructor
stores the received token pointer itself in myStringLit; it never reads
the token text. -/
def StrLitNode.construct (stringLit : Nat) : ExpNode :=
  ExpNode.strLitE stringLit

/-- Translated from ast.hpp lines 156-158: the DeclListNode constructor
receives a pointer to the builder list and copies the pointed-to list
(myDecls = *decls).  The dereference is unconditional, so a null pointer
admits no defined result (none); a valid pointer always yields a node
holding the snapshot of the store at construction time. -/
def DeclListNode.construct (store : Nat → List DeclNode) (decls : Option Nat) :
    Option DeclListNode :=
  match decls with
  | none => none
  | some p => some (DeclListNode.mkDL (store p))

/-- Translated from ast.hpp lines 276-278: the FormalsListNode
constructor copies the pointed-to list (myFormalDeclList =
*formalDeclList); the dereference is unconditional. -/
def FormalsListNode.construct (store : Nat → List FormalDeclNode)
    (formalDeclList : Option Nat) : Option FormalsListNode :=
  match formalDeclList with
  | none => none
  | some p => some (FormalsListNode.mk (store p))

/-- Translated from ast.hpp lines 298-300: the StmtListNode constructor
copies the pointed-to list (myStmtList = *stmtList); the dereference is
unconditional. -/
def StmtListNode.construct (store : Nat → List StmtNode) (stmtList : Option Nat) :
    Option StmtListNode :=
  match stmtList with
  | none => none
  | some p => some (StmtListNode.mk (store p))

/-- Translated from ast.hpp lines 146-148: the ExpListNode constructor
receives std::list by value, so the caller hands it a copy of the
builder list; no pointer is involved and no null case exists. -/
def ExpListNode.construct (expList : List ExpNode) : ExpListNode :=
  ExpListNode.mk expList

/-- Modelled from the spec: the unparse bodies are declared in ast.hpp
but defined outside the visible sources, so type rendering follows the
spec rules for type annotations (the keyword of the variant; a struct
reference renders the stored struct name). -/
def TypeNode.unparse : TypeNode → String
  | TypeNode.intT => "int"
  | TypeNode.boolT => "bool"
  | TypeNode.voidT => "void"
  | TypeNode.structT id => "struct " ++ id.myStrVal

/-- Modelled from the spec: expression rendering.  Expressions render
with no enclosing indentation.  An IdNode renders its copied text; an
IntLitNode or StrLitNode holds only a token pointer (ast.hpp lines 354
and 364), so rendering its value must read the token heap through that
pointer at render time; assignment renders both operands around the
assignment token; DotAccess renders base, access token, then member. -/
def ExpNode.unparse (h : TokenHeaps) : ExpNode → String
  | ExpNode.idE id => id.myStrVal
  | ExpNode.intLitE p => toString (h.intTok p).value
  | ExpNode.strLitE p => (h.strTok p).value
  | ExpNode.trueE => "true"
  | ExpNode.assignE e1 e2 => ExpNode.unparse h e1 ++ " = " ++ ExpNode.unparse h e2
  | ExpNode.dotAccessE e id => ExpNode.unparse h e ++ "." ++ id.myStrVal

/-- Modelled from the spec: AssignNode rendering, as used by
AssignStmtNode; identical to its rendering as an expression. -/
def AssignNode.unparse (h : TokenHeaps) (a : AssignNode) : String :=
  ExpNode.unparse h a.myExpNode1 ++ " = " ++ ExpNode.unparse h a.myExpNode2

/-- Modelled from the spec: an expression list renders its children
comma-separated inline, forwarding no indentation; an empty sequence
renders nothing. -/
def ExpListNode.unparse (h : TokenHeaps) (el : ExpListNode) : String :=
  String.intercalate ", " (el.myExpList.map (fun e => ExpNode.unparse h e))

/-- Modelled from the spec: an assignment statement begins a logical
line, so it indents, renders its AssignNode, and terminates with the
statement terminator and newline. -/
def StmtNode.unparse (h : TokenHeaps) (s : StmtNode) (indent : Int) : String :=
  match s with
  | StmtNode.assignStmt a => ASTNode.doIndent indent ++ AssignNode.unparse h a ++ ";\n"

/-- Modelled from the spec: a statement list does not indent itself; it
forwards the current indentation level unchanged to each child in order;
an empty sequence renders nothing. -/
def StmtListNode.unparse (h : TokenHeaps) (sl : StmtListNode) (indent : Int) : String :=
  String.join (sl.myStmtList.map (fun s => StmtNode.unparse h s indent))

/-- Modelled from the spec: a formal declaration renders its type then
its identifier, with no terminator (its list supplies separation). -/
def FormalDeclNode.unparse (f : FormalDeclNode) : String :=
  TypeNode.unparse f.myType ++ " " ++ f.myId.myStrVal

/-- Modelled from the spec: a formals list renders its children
comma-separated inline; an empty sequence renders nothing. -/
def FormalsListNode.unparse (fl : FormalsListNode) : String :=
  String.intercalate ", " (fl.myFormalDeclList.map FormalDeclNode.unparse)

mutual

/-- Modelled from the spec: declaration rendering.  A variable
declaration indents, renders type then identifier, appends the size
suffix only when mySize is not the NOT_STRUCT sentinel, and terminates
with the statement terminator and newline.  A function declaration
renders its header inline, its body one level deeper between block
delimiters, and the closing delimiter back at the current level.  A
struct declaration renders its member list one level deeper between
block delimiters. -/
def DeclNode.unparse (h : TokenHeaps) (d : DeclNode) (indent : Int) : String :=
  match d with
  | DeclNode.varDecl ty id sz =>
      ASTNode.doIndent indent ++ TypeNode.unparse ty ++ " " ++ id.myStrVal ++
        (if sz = VarDeclNode.NOT_STRUCT then "" else "[" ++ toString sz ++ "]") ++ ";\n"
  | DeclNode.fnDecl ty id formals body =>
      ASTNode.doIndent indent ++ TypeNode.unparse ty ++ " " ++ id.myStrVal ++ "(" ++
        FormalsListNode.unparse formals ++ ") \x7b\n" ++
        FnBodyNode.unparse h body (indent + 1) ++
        ASTNode.doIndent indent ++ "\x7d\n"
  | DeclNode.formalDecl f => FormalDeclNode.unparse f
  | DeclNode.structDecl id dl =>
      ASTNode.doIndent indent ++ "struct " ++ id.myStrVal ++ " \x7b\n" ++
        DeclListNode.unparse h dl (indent + 1) ++
        ASTNode.doIndent indent ++ "\x7d;\n"

/-- Modelled from the spec: a declaration list does not indent itself;
it forwards the current indentation level unchanged to each child in
order (each child is newline-terminated); an empty sequence renders
nothing. -/
def DeclListNode.unparse (h : TokenHeaps) (dl : DeclListNode) (indent : Int) : String :=
  match dl with
  | DeclListNode.mkDL ds => DeclNode.unparseSeq h ds indent

/-- Rendering of the children of a declaration list, in order. -/
def DeclNode.unparseSeq (h : TokenHeaps) (ds : List DeclNode) (indent : Int) : String :=
  match ds with
  | [] => ""
  | d :: rest => DeclNode.unparse h d indent ++ DeclNode.unparseSeq h rest indent

/-- Modelled from the spec: a function body renders its declaration list
then its statement list, both at the level it receives. -/
def FnBodyNode.unparse (h : TokenHeaps) (b : FnBodyNode) (indent : Int) : String :=
  match b with
  | FnBodyNode.mkFB dl sl =>
      DeclListNode.unparse h dl indent ++ StmtListNode.unparse h sl indent

end

/-- Modelled from the spec: the program root starts recursive rendering
of its declaration list at the received indentation level
(conventionally zero). -/
def ProgramNode.unparse (h : TokenHeaps) (p : ProgramNode) (indent : Int) : String :=
  DeclListNode.unparse h p.myDeclList indent

/-- Modelled from the spec: the std::ostream sink accumulates written
characters; a render call appends the emitted text to the sink contents
and mutates nothing else. -/
def ProgramNode.unparseTo (h : TokenHeaps) (out : String) (p : ProgramNode)
    (indent : Int) : String :=
  out ++ ProgramNode.unparse h p indent

/-- The statement kinds the spec enumerates for the StmtNode family. -/
inductive StmtKind where
  | assignK
  | postIncK
  | postDecK
  | readK
  | writeK
  | ifK
  | ifElseK
  | whileK
  | callK
  | returnK
  deriving DecidableEq

/-- The expression kinds the spec enumerates for the ExpNode family. -/
inductive ExpKind where
  | intLitK
  | strLitK
  | trueK
  | falseK
  | idK
  | dotAccessK
  | assignK
  | callK
  | unaryMinusK
  | notK
  | plusK
  | minusK
  | timesK
  | divideK
  | andK
  | orK
  | equalsK
  | notEqualsK
  | lessK
  | greaterK
  | lessEqK
  | greaterEqK
  deriving DecidableEq

/-- The kind of a constructible statement node. -/
def StmtNode.kind : StmtNode → StmtKind
  | StmtNode.assignStmt _ => StmtKind.assignK

/-- The kind of a constructible expression node. -/
def ExpNode.kind : ExpNode → ExpKind
  | ExpNode.idE _ => ExpKind.idK
  | ExpNode.intLitE _ => ExpKind.intLitK
  | ExpNode.strLitE _ => ExpKind.strLitK
  | ExpNode.trueE => ExpKind.trueK
  | ExpNode.assignE _ _ => ExpKind.assignK
  | ExpNode.dotAccessE _ _ => ExpKind.dotAccessK

/-- A concrete token heap used to evaluate theorems on concrete nodes. -/
def heaps0 : TokenHeaps :=
  TokenHeaps.mk (fun _ => IntLitToken.mk 0) (fun _ => StringLitToken.mk "")

/-- A token heap whose integer token at every address holds 7. -/
def heapsA : TokenHeaps :=
  TokenHeaps.mk (fun _ => IntLitToken.mk 7) (fun _ => StringLitToken.mk "s")

/-- The heap heapsA after the lexer-owned integer token at address 0 is
changed to hold 8 (every address holds 8 here; only address 0 is read). -/
def heapsB : TokenHeaps :=
  TokenHeaps.mk (fun _ => IntLitToken.mk 8) (fun _ => StringLitToken.mk "s")

/-- The doIndent loop appends one character per iteration. -/
theorem doIndentAux_length (k : Nat) : (doIndentAux k).length = k := by
  induction k with
  | zero => rfl
  | succ k ih => rw [doIndentAux, String.length_append, ih]; rfl

/-- The doIndent loop accumulates k copies of the single-space unit. -/
theorem doIndentAux_join (k : Nat) :
    doIndentAux k = String.join (List.replicate k " ") := by
  induction k with
  | zero => rfl
  | succ k ih =>
    rw [doIndentAux, ih, List.replicate_succ']
    simp [String.join, List.foldl_append]

/-- C1: a variable declaration whose mySize is the NOT_STRUCT sentinel
renders with no size suffix; for every other stored size value the
rendering carries the size suffix with that value verbatim. -/
theorem varDecl_sentinel_rendering (h : TokenHeaps) (ty : TypeNode) (id : IdNode)
    (sz : Int) (i : Int) :
    (sz = VarDeclNode.NOT_STRUCT →
      DeclNode.unparse h (DeclNode.varDecl ty id sz) i =
        ASTNode.doIndent i ++ TypeNode.unparse ty ++ " " ++ id.myStrVal ++ ";\n") ∧
    (sz ≠ VarDeclNode.NOT_STRUCT →
      DeclNode.unparse h (DeclNode.varDecl ty id sz) i =
        ASTNode.doIndent i ++ TypeNode.unparse ty ++ " " ++ id.myStrVal ++
          "[" ++ toString sz ++ "]" ++ ";\n") := by
  constructor
  · intro hs
    simp [DeclNode.unparse, hs]
  · intro hs
    simp [DeclNode.unparse, hs, String.append_assoc]

/-- C1 witness: concrete sentinel and non-sentinel variable declarations
rendered at indentation zero. -/
theorem varDecl_sentinel_rendering_w :
    DeclNode.unparse heaps0 (DeclNode.varDecl TypeNode.intT (IdNode.mk "x") (-1)) 0 =
      "int x;\n" ∧
    DeclNode.unparse heaps0 (DeclNode.varDecl TypeNode.intT (IdNode.mk "y") 4) 0 =
      "int y[4];\n" := by
  constructor
  · exact (varDecl_sentinel_rendering heaps0 TypeNode.intT (IdNode.mk "x") (-1) 0).1 rfl
  · exact (varDecl_sentinel_rendering heaps0 TypeNode.intT (IdNode.mk "y") 4 0).2
      (by decide)

/-- C2: doIndent at every non-negative level n emits exactly n copies of
the indentation unit, the unit being the single-space string, so a node
beginning a logical line is preceded by exactly n spaces. -/
theorem doIndent_unit_spaces (n : Nat) :
    ASTNode.doIndent (n : Int) = String.join (List.replicate n " ") ∧
    (ASTNode.doIndent (n : Int)).length = n := by
  have ht : ((n : Int)).toNat = n := by omega
  constructor
  · rw [ASTNode.doIndent, ht, doIndentAux_join]
  · rw [ASTNode.doIndent, ht, doIndentAux_length]

/-- C3 counterexample: one IntLitNode constructed from the token at
address 0; changing that lexer-owned token afterwards (heapsA to heapsB)
changes the rendering of the already constructed node, so its rendering
is not independent of the token object after construction. -/
theorem intLit_render_tracks_token :
    (ExpNode.unparse heapsA (IntLitNode.construct 0) =
      ExpNode.unparse heapsB (IntLitNode.construct 0)) = False := by
  decide

/-- C3 amended: IdNode copies the token text at construction and its
rendering never reads token storage again, while IntLitNode and
StrLitNode retain the token pointer, so their rendering reads the token
heap through that pointer at render time. -/
theorem leaf_token_capture (idTok : Nat → IDToken) (p : Nat) (h h2 : TokenHeaps) :
    ExpNode.unparse h (ExpNode.idE (IdNode.construct idTok p)) = (idTok p).value ∧
    ExpNode.unparse h (ExpNode.idE (IdNode.construct idTok p)) =
      ExpNode.unparse h2 (ExpNode.idE (IdNode.construct idTok p)) ∧
    ExpNode.unparse h (IntLitNode.construct p) = toString (h.intTok p).value ∧
    ExpNode.unparse h (StrLitNode.construct p) = (h.strTok p).value :=
  ⟨rfl, rfl, rfl, rfl⟩

/-- C4: every constructible statement node is of the Assign kind, and
every constructible expression node is of one of the six kinds IntLit,
StrLit, True, Id, DotAccess, Assign; the remaining kinds the spec
enumerates (PostInc, PostDec, Read, Write, If, IfElse, While, Call,
Return; False, Call, the unary and the twelve binary operators) have no
constructible node variant in the defined classes. -/
theorem defined_node_kinds :
    (∀ s : StmtNode, StmtNode.kind s = StmtKind.assignK) ∧
    (∀ e : ExpNode, ExpNode.kind e = ExpKind.intLitK ∨ ExpNode.kind e = ExpKind.strLitK ∨
      ExpNode.kind e = ExpKind.trueK ∨ ExpNode.kind e = ExpKind.idK ∨
      ExpNode.kind e = ExpKind.dotAccessK ∨ ExpNode.kind e = ExpKind.assignK) := by
  constructor
  · intro s
    cases s
    rfl
  · intro e
    cases e <;> simp [ExpNode.kind]

/-- C5: rendering one constructed tree into two independent sinks appends
one and the same byte sequence to each sink; the render mutates nothing,
so both renders emit byte-identical output. -/
theorem render_two_sinks (h : TokenHeaps) (p : ProgramNode) (i : Int)
    (s1 s2 : String) :
    ∃ out : String, ProgramNode.unparseTo h s1 p i = s1 ++ out ∧
      ProgramNode.unparseTo h s2 p i = s2 ++ out :=
  ⟨ProgramNode.unparse h p i, rfl, rfl⟩

/-- C6: each list node constructor snapshots the builder sequence: the
constructed node holds the value the store had at construction, the
member accessor returns exactly that value, and an update of the builder
store afterwards changes what the store holds but not what any
already-constructed node holds. -/
theorem list_construct_copies (dstore : Nat → List DeclNode)
    (sstore : Nat → List StmtNode) (fstore : Nat → List FormalDeclNode)
    (estore : Nat → List ExpNode) (p : Nat) (dl : List DeclNode)
    (sl : List StmtNode) (fl : List FormalDeclNode) (el : List ExpNode) :
    (DeclListNode.construct dstore (some p) = some (DeclListNode.mkDL (dstore p)) ∧
      (DeclListNode.mkDL (dstore p)).myDecls = dstore p ∧
      Function.update dstore p dl p = dl) ∧
    (StmtListNode.construct sstore (some p) = some (StmtListNode.mk (sstore p)) ∧
      (StmtListNode.mk (sstore p)).myStmtList = sstore p ∧
      Function.update sstore p sl p = sl) ∧
    (FormalsListNode.construct fstore (some p) = some (FormalsListNode.mk (fstore p)) ∧
      (FormalsListNode.mk (fstore p)).myFormalDeclList = fstore p ∧
      Function.update fstore p fl p = fl) ∧
    (ExpListNode.construct (estore p) = ExpListNode.mk (estore p) ∧
      (ExpListNode.construct (estore p)).myExpList = estore p ∧
      Function.update estore p el p = el) := by
  refine ⟨⟨rfl, rfl, ?_⟩, ⟨rfl, rfl, ?_⟩, ⟨rfl, rfl, ?_⟩, ⟨rfl, rfl, ?_⟩⟩ <;>
    simp [Function.update_same]

/-- C7: a declaration list, statement list, formals list or expression
list constructed from the empty sequence renders as empty output: no
delimiters, no separators, no indentation. -/
theorem empty_lists_render_empty (h : TokenHeaps) (i : Int) :
    DeclListNode.unparse h (DeclListNode.mkDL []) i = "" ∧
    StmtListNode.unparse h (StmtListNode.mk []) i = "" ∧
    FormalsListNode.unparse (FormalsListNode.mk []) = "" ∧
    ExpListNode.unparse h (ExpListNode.mk []) = "" := by
  refine ⟨?_, rfl, rfl, rfl⟩
  simp [DeclListNode.unparse, DeclNode.unparseSeq]

/-- C8: rendering a well-formed tree always completes, appending a finite
text representation to the sink; the render operation has no failure
result and no error branch (it is a total function into String). -/
theorem render_total (h : TokenHeaps) (p : ProgramNode) (i : Int) (s : String) :
    ∃ out : String, ProgramNode.unparseTo h s p i = s ++ out :=
  ⟨ProgramNode.unparse h p i, rfl⟩

/-- C9: doIndent is total over every integer indent value and writes
nothing when the indent is zero or negative, since the loop body never
executes. -/
theorem doIndent_nonpos (i : Int) (h : i ≤ 0) : ASTNode.doIndent i = "" := by
  have ht : i.toNat = 0 := by omega
  rw [ASTNode.doIndent, ht]
  rfl

/-- C9 witness: doIndent at the negative level -3 emits nothing. -/
theorem doIndent_nonpos_w : ASTNode.doIndent (-3) = "" :=
  doIndent_nonpos (-3) (by decide)

/-- C10: the DeclListNode, FormalsListNode and StmtListNode constructors
dereference their list pointer unconditionally, so a null pointer admits
no constructed node while any non-null pointer always yields one;
ExpListNode receives its sequence by value and always constructs. -/
theorem list_construct_null_precondition (dstore : Nat → List DeclNode)
    (sstore : Nat → List StmtNode) (fstore : Nat → List FormalDeclNode)
    (p : Nat) (el : List ExpNode) :
    (DeclListNode.construct dstore none = none ∧
      ∃ n, DeclListNode.construct dstore (some p) = some n) ∧
    (FormalsListNode.construct fstore none = none ∧
      ∃ n, FormalsListNode.construct fstore (some p) = some n) ∧
    (StmtListNode.construct sstore none = none ∧
      ∃ n, StmtListNode.construct sstore (some p) = some n) ∧
    ExpListNode.construct el = ExpListNode.mk el :=
  ⟨⟨rfl, ⟨DeclListNode.mkDL (dstore p), rfl⟩⟩,
    ⟨rfl, ⟨FormalsListNode.mk (fstore p), rfl⟩⟩,
    ⟨rfl, ⟨StmtListNode.mk (sstore p), rfl⟩⟩, rfl⟩
